import Mathlib

/-!
Shallow embedding of the Django data schema in `models.py` of the
audiovisual-production management repository (ACTV7, Centro de Reciclaje).

Each Django model becomes a Lean structure with one field per column:
`null=True` columns become `Option` fields, `DecimalField` columns become
`Int` (amounts in minor units; no arithmetic is performed on them),
`DateField` / `TimeField` / `DateTimeField` columns become `Nat`
timestamps, and `CharField` / `TextField` columns become `String`.
The implicit `AutoField` primary key becomes an `id : Nat` field assigned
by the insert operations from a running counter.

The database is a record of seven tables (lists of rows).  Insert
operations enforce the declared `unique`, `unique_together` and
foreign-key constraints, failing with a `DBError` the way the database
engine raises a constraint violation; delete operations implement the
declared `on_delete` referential actions (`CASCADE` and `SET_NULL`).
-/

/-- Row of `Rol_Produccion`: `nombre_rol` is declared `unique=True`. -/
structure Rol_Produccion where
  id : Nat
  nombre_rol : String
  descripcion_rol : Option String
  departamento : String
  salario_promedio : Option Int
  habilidades_requeridas : Option String
  deriving DecidableEq, Repr

/-- Row of `Miembro_Equipo`: `email` is `unique=True`; `rol_produccion`
is a nullable foreign key to `Rol_Produccion` with `on_delete=SET_NULL`. -/
structure Miembro_Equipo where
  id : Nat
  nombre : String
  apellido : String
  rol_produccion : Option Nat
  email : String
  telefono : Option String
  fecha_contratacion : Nat
  salario_base : Int
  especialidad_tecnica : Option String
  disponibilidad : Option String
  deriving DecidableEq, Repr

/-- Row of `Proyecto_Audiovisual`: `titulo` is `unique=True`; `director`
is a nullable foreign key to `Miembro_Equipo` with `on_delete=SET_NULL`. -/
structure Proyecto_Audiovisual where
  id : Nat
  titulo : String
  tipo_produccion : String
  fecha_inicio : Nat
  fecha_fin_estimada : Option Nat
  presupuesto : Int
  estado_proyecto : String
  director : Option Nat
  descripcion : Option String
  distribucion_prevista : Option String
  deriving DecidableEq, Repr

/-- Row of `Escena`: `proyecto` is a required foreign key to
`Proyecto_Audiovisual` with `on_delete=CASCADE`; `numero_escena` is a
plain `IntegerField`; `unique_together = (proyecto, numero_escena)`. -/
structure Escena where
  id : Nat
  proyecto : Nat
  numero_escena : Int
  descripcion_escena : String
  localizacion : String
  fecha_grabacion_estimada : Option Nat
  hora_grabacion : Option Nat
  actores_involucrados : Option String
  equipos_especiales : Option String
  deriving DecidableEq, Repr

/-- Row of `Material_Grabado`: `escena` is a required foreign key to
`Escena` with `on_delete=CASCADE`; `ruta_almacenamiento` is `unique=True`;
`version` has `default='V1'`, mirrored by the structure field default. -/
structure Material_Grabado where
  id : Nat
  escena : Nat
  tipo_material : String
  duracion_segundos : Int
  formato_archivo : String
  fecha_grabacion_real : Nat
  ruta_almacenamiento : String
  notas_tecnicas : Option String
  version : String := "V1"
  deriving DecidableEq, Repr

/-- Row of `Presupuesto_Detalle`: `proyecto` is a required foreign key to
`Proyecto_Audiovisual` with `on_delete=CASCADE`; `tipo_moneda` has
`default='USD'`, mirrored by the structure field default. -/
structure Presupuesto_Detalle where
  id : Nat
  proyecto : Nat
  categoria_gasto : String
  descripcion_gasto : String
  monto_estimado : Int
  monto_real : Option Int
  fecha_gasto : Option Nat
  aprobado_por : Option String
  tipo_moneda : String := "USD"
  deriving DecidableEq, Repr

/-- Row of `Contrato_Talento`: `proyecto` and `miembro` are required
foreign keys (both `on_delete=CASCADE`);
`unique_together = (proyecto, miembro)`. -/
structure Contrato_Talento where
  id : Nat
  proyecto : Nat
  miembro : Nat
  fecha_firma : Nat
  salario_acordado : Int
  clausulas_especiales : Option String
  duracion_contrato : String
  rol_especifico : String
  deriving DecidableEq, Repr

/-- Constraint violations raised by the database engine. -/
inductive DBError where
  | uniqueViolation
  | fkViolation
  deriving DecidableEq, Repr

/-- The database: one table per model, plus the auto-increment counter
for the implicit primary keys. -/
structure DB where
  roles : List Rol_Produccion
  miembros : List Miembro_Equipo
  proyectos : List Proyecto_Audiovisual
  escenas : List Escena
  materiales : List Material_Grabado
  presupuestos : List Presupuesto_Detalle
  contratos : List Contrato_Talento
  nextId : Nat
  deriving DecidableEq, Repr

/-- The empty database. -/
def emptyDB : DB :=
  { roles := [], miembros := [], proyectos := [], escenas := [],
    materiales := [], presupuestos := [], contratos := [], nextId := 0 }

/-- Insert a `Rol_Produccion` row: fails if `nombre_rol` duplicates an
existing row (`unique=True`). -/
def insertRol (db : DB) (r : Rol_Produccion) : Except DBError DB :=
  if ∃ x ∈ db.roles, x.nombre_rol = r.nombre_rol then
    .error .uniqueViolation
  else
    .ok { db with roles := { r with id := db.nextId } :: db.roles,
                  nextId := db.nextId + 1 }

/-- Insert a `Miembro_Equipo` row: fails if `email` duplicates an existing
row (`unique=True`), or if the optional `rol_produccion` foreign key
references no existing `Rol_Produccion`. -/
def insertMiembro (db : DB) (m : Miembro_Equipo) : Except DBError DB :=
  if ∃ x ∈ db.miembros, x.email = m.email then
    .error .uniqueViolation
  else if ∀ rid ∈ m.rol_produccion, ∃ x ∈ db.roles, x.id = rid then
    .ok { db with miembros := { m with id := db.nextId } :: db.miembros,
                  nextId := db.nextId + 1 }
  else
    .error .fkViolation

/-- Insert a `Proyecto_Audiovisual` row: fails if `titulo` duplicates an
existing row (`unique=True`), or if the optional `director` foreign key
references no existing `Miembro_Equipo`. -/
def insertProyecto (db : DB) (p : Proyecto_Audiovisual) : Except DBError DB :=
  if ∃ x ∈ db.proyectos, x.titulo = p.titulo then
    .error .uniqueViolation
  else if ∀ mid ∈ p.director, ∃ x ∈ db.miembros, x.id = mid then
    .ok { db with proyectos := { p with id := db.nextId } :: db.proyectos,
                  nextId := db.nextId + 1 }
  else
    .error .fkViolation

/-- Insert an `Escena` row: fails if the pair `(proyecto, numero_escena)`
duplicates an existing row (`unique_together`), or if `proyecto`
references no existing `Proyecto_Audiovisual`. -/
def insertEscena (db : DB) (e : Escena) : Except DBError DB :=
  if ∃ x ∈ db.escenas, x.proyecto = e.proyecto ∧ x.numero_escena = e.numero_escena then
    .error .uniqueViolation
  else if ∃ x ∈ db.proyectos, x.id = e.proyecto then
    .ok { db with escenas := { e with id := db.nextId } :: db.escenas,
                  nextId := db.nextId + 1 }
  else
    .error .fkViolation

/-- Insert a `Material_Grabado` row: fails if `ruta_almacenamiento`
duplicates an existing row (`unique=True`), or if `escena` references no
existing `Escena`. -/
def insertMaterial (db : DB) (m : Material_Grabado) : Except DBError DB :=
  if ∃ x ∈ db.materiales, x.ruta_almacenamiento = m.ruta_almacenamiento then
    .error .uniqueViolation
  else if ∃ x ∈ db.escenas, x.id = m.escena then
    .ok { db with materiales := { m with id := db.nextId } :: db.materiales,
                  nextId := db.nextId + 1 }
  else
    .error .fkViolation

/-- Insert a `Presupuesto_Detalle` row: fails only if `proyecto`
references no existing `Proyecto_Audiovisual` (no uniqueness constraint
is declared on this model). -/
def insertPresupuesto (db : DB) (b : Presupuesto_Detalle) : Except DBError DB :=
  if ∃ x ∈ db.proyectos, x.id = b.proyecto then
    .ok { db with presupuestos := { b with id := db.nextId } :: db.presupuestos,
                  nextId := db.nextId + 1 }
  else
    .error .fkViolation

/-- Insert a `Contrato_Talento` row: fails if the pair
`(proyecto, miembro)` duplicates an existing row (`unique_together`), or
if either required foreign key references no existing parent. -/
def insertContrato (db : DB) (c : Contrato_Talento) : Except DBError DB :=
  if ∃ x ∈ db.contratos, x.proyecto = c.proyecto ∧ x.miembro = c.miembro then
    .error .uniqueViolation
  else if (∃ x ∈ db.proyectos, x.id = c.proyecto) ∧ (∃ x ∈ db.miembros, x.id = c.miembro) then
    .ok { db with contratos := { c with id := db.nextId } :: db.contratos,
                  nextId := db.nextId + 1 }
  else
    .error .fkViolation

/-- Delete a `Rol_Produccion` row by id.  `Miembro_Equipo.rol_produccion`
is declared `on_delete=SET_NULL`: referencing members keep their row but
their foreign key is set to null. -/
def deleteRol (db : DB) (rid : Nat) : DB :=
  { db with
    roles := db.roles.filter (fun x => decide (x.id ≠ rid)),
    miembros := db.miembros.map (fun m =>
      if m.rol_produccion = some rid then { m with rol_produccion := none } else m) }

/-- Delete a `Miembro_Equipo` row by id.
`Proyecto_Audiovisual.director` is `on_delete=SET_NULL`: referencing
projects keep their row with a null director.
`Contrato_Talento.miembro` is `on_delete=CASCADE`: the member's contracts
are deleted with the member. -/
def deleteMiembro (db : DB) (mid : Nat) : DB :=
  { db with
    miembros := db.miembros.filter (fun m => decide (m.id ≠ mid)),
    proyectos := db.proyectos.map (fun p =>
      if p.director = some mid then { p with director := none } else p),
    contratos := db.contratos.filter (fun c => decide (c.miembro ≠ mid)) }

/-- Delete a `Proyecto_Audiovisual` row by id.  `Escena.proyecto`,
`Presupuesto_Detalle.proyecto` and `Contrato_Talento.proyecto` are all
`on_delete=CASCADE`, and `Material_Grabado.escena` is `on_delete=CASCADE`
in turn, so the delete also removes every material of a deleted scene. -/
def deleteProyecto (db : DB) (pid : Nat) : DB :=
  { db with
    proyectos := db.proyectos.filter (fun p => decide (p.id ≠ pid)),
    escenas := db.escenas.filter (fun e => decide (e.proyecto ≠ pid)),
    materiales := db.materiales.filter (fun m =>
      decide (¬ ∃ e ∈ db.escenas, e.id = m.escena ∧ e.proyecto = pid)),
    presupuestos := db.presupuestos.filter (fun b => decide (b.proyecto ≠ pid)),
    contratos := db.contratos.filter (fun c => decide (c.proyecto ≠ pid)) }

/-- Delete an `Escena` row by id.  `Material_Grabado.escena` is
`on_delete=CASCADE`: the scene's recorded material is deleted with it. -/
def deleteEscena (db : DB) (eid : Nat) : DB :=
  { db with
    escenas := db.escenas.filter (fun e => decide (e.id ≠ eid)),
    materiales := db.materiales.filter (fun m => decide (m.escena ≠ eid)) }

/-- Delete a `Material_Grabado` row by id (no dependents). -/
def deleteMaterial (db : DB) (mid : Nat) : DB :=
  { db with materiales := db.materiales.filter (fun m => decide (m.id ≠ mid)) }

/-- Delete a `Presupuesto_Detalle` row by id (no dependents). -/
def deletePresupuesto (db : DB) (bid : Nat) : DB :=
  { db with presupuestos := db.presupuestos.filter (fun b => decide (b.id ≠ bid)) }

/-- Delete a `Contrato_Talento` row by id (no dependents). -/
def deleteContrato (db : DB) (cid : Nat) : DB :=
  { db with contratos := db.contratos.filter (fun c => decide (c.id ≠ cid)) }

/-- The operations the schema exposes through the persistence layer:
row insertion and row deletion on each of the seven tables. -/
inductive Op where
  | insRol (r : Rol_Produccion)
  | insMiembro (m : Miembro_Equipo)
  | insProyecto (p : Proyecto_Audiovisual)
  | insEscena (e : Escena)
  | insMaterial (m : Material_Grabado)
  | insPresupuesto (b : Presupuesto_Detalle)
  | insContrato (c : Contrato_Talento)
  | delRol (id : Nat)
  | delMiembro (id : Nat)
  | delProyecto (id : Nat)
  | delEscena (id : Nat)
  | delMaterial (id : Nat)
  | delPresupuesto (id : Nat)
  | delContrato (id : Nat)
  deriving Repr

/-- A failed insert is rejected by the engine and the state is unchanged. -/
def applyIns (db : DB) : Except DBError DB → DB
  | .ok db' => db'
  | .error _ => db

/-- One transition of the database state machine. -/
def applyOp (db : DB) : Op → DB
  | .insRol r => applyIns db (insertRol db r)
  | .insMiembro m => applyIns db (insertMiembro db m)
  | .insProyecto p => applyIns db (insertProyecto db p)
  | .insEscena e => applyIns db (insertEscena db e)
  | .insMaterial m => applyIns db (insertMaterial db m)
  | .insPresupuesto b => applyIns db (insertPresupuesto db b)
  | .insContrato c => applyIns db (insertContrato db c)
  | .delRol i => deleteRol db i
  | .delMiembro i => deleteMiembro db i
  | .delProyecto i => deleteProyecto db i
  | .delEscena i => deleteEscena db i
  | .delMaterial i => deleteMaterial db i
  | .delPresupuesto i => deletePresupuesto db i
  | .delContrato i => deleteContrato db i

/-- States reachable from the empty database through schema operations. -/
inductive Reachable : DB → Prop where
  | init : Reachable emptyDB
  | step {db : DB} (op : Op) : Reachable db → Reachable (applyOp db op)

/-- `nombre_rol` is pairwise distinct across the `Rol_Produccion` table. -/
def rolesUnique (db : DB) : Prop :=
  db.roles.Pairwise (fun a b => a.nombre_rol ≠ b.nombre_rol)

/-- `email` is pairwise distinct across the `Miembro_Equipo` table. -/
def emailsUnique (db : DB) : Prop :=
  db.miembros.Pairwise (fun a b => a.email ≠ b.email)

/-- `titulo` is pairwise distinct across the `Proyecto_Audiovisual` table. -/
def titulosUnique (db : DB) : Prop :=
  db.proyectos.Pairwise (fun a b => a.titulo ≠ b.titulo)

/-- `ruta_almacenamiento` is pairwise distinct across the
`Material_Grabado` table. -/
def rutasUnique (db : DB) : Prop :=
  db.materiales.Pairwise (fun a b => a.ruta_almacenamiento ≠ b.ruta_almacenamiento)

/-! Concrete sample rows and a sample database, used to instantiate the
claim theorems on concrete inputs. -/

/-- Sample role row. -/
def rolD : Rol_Produccion :=
  { id := 1, nombre_rol := "Director", descripcion_rol := none,
    departamento := "Direccion", salario_promedio := some 5000,
    habilidades_requeridas := none }

/-- Sample team member row (referenced as director and by the contract). -/
def miembroAna : Miembro_Equipo :=
  { id := 1, nombre := "Ana", apellido := "Lopez", rol_produccion := some 1,
    email := "ana@studio.example", telefono := none, fecha_contratacion := 100,
    salario_base := 1000, especialidad_tecnica := none, disponibilidad := none }

/-- Second sample team member row. -/
def miembroBen : Miembro_Equipo :=
  { id := 2, nombre := "Ben", apellido := "Ruiz", rol_produccion := none,
    email := "ben@studio.example", telefono := none, fecha_contratacion := 110,
    salario_base := 900, especialidad_tecnica := none, disponibilidad := none }

/-- Sample project row, directed by `miembroAna`. -/
def proyectoA : Proyecto_Audiovisual :=
  { id := 1, titulo := "Film A", tipo_produccion := "Largometraje",
    fecha_inicio := 200, fecha_fin_estimada := none, presupuesto := 100000,
    estado_proyecto := "Rodaje", director := some 1, descripcion := none,
    distribucion_prevista := none }

/-- Second sample project row, with no director. -/
def proyectoB : Proyecto_Audiovisual :=
  { id := 2, titulo := "Film B", tipo_produccion := "Corto",
    fecha_inicio := 210, fecha_fin_estimada := none, presupuesto := 5000,
    estado_proyecto := "Preproduccion", director := none, descripcion := none,
    distribucion_prevista := none }

/-- Sample scene row: scene number 1 of project 1. -/
def escenaA1 : Escena :=
  { id := 1, proyecto := 1, numero_escena := 1, descripcion_escena := "Apertura",
    localizacion := "Estudio", fecha_grabacion_estimada := none,
    hora_grabacion := none, actores_involucrados := none,
    equipos_especiales := none }

/-- Sample recorded-material row attached to scene 1. -/
def materialA1 : Material_Grabado :=
  { id := 1, escena := 1, tipo_material := "video", duracion_segundos := 120,
    formato_archivo := "mp4", fecha_grabacion_real := 300,
    ruta_almacenamiento := "media/a1.mp4", notas_tecnicas := none }

/-- Sample budget line row attached to project 1. -/
def presupuestoA : Presupuesto_Detalle :=
  { id := 1, proyecto := 1, categoria_gasto := "Camara",
    descripcion_gasto := "Alquiler de camara", monto_estimado := 500,
    monto_real := none, fecha_gasto := none, aprobado_por := none }

/-- Sample contract row: member 1 contracted on project 1. -/
def contratoA1 : Contrato_Talento :=
  { id := 1, proyecto := 1, miembro := 1, fecha_firma := 250,
    salario_acordado := 800, clausulas_especiales := none,
    duracion_contrato := "3 meses", rol_especifico := "Actor principal" }

/-- A populated sample database. -/
def sampleDB : DB :=
  { roles := [rolD], miembros := [miembroAna, miembroBen],
    proyectos := [proyectoA, proyectoB], escenas := [escenaA1],
    materiales := [materialA1], presupuestos := [presupuestoA],
    contratos := [contratoA1], nextId := 10 }

/-! Helper lemmas about the referential actions and the uniqueness
invariants. -/

/-- Nullifying the role foreign key does not change a member's email. -/
theorem email_nullifyRol (rid : Nat) (m : Miembro_Equipo) :
    (if m.rol_produccion = some rid then { m with rol_produccion := none }
     else m).email = m.email := by
  split <;> rfl

/-- Nullifying the director foreign key does not change a project's title. -/
theorem titulo_nullifyDirector (mid : Nat) (p : Proyecto_Audiovisual) :
    (if p.director = some mid then { p with director := none }
     else p).titulo = p.titulo := by
  split <;> rfl

/-- Every operation preserves uniqueness of `Rol_Produccion.nombre_rol`. -/
theorem rolesUnique_applyOp (db : DB) (op : Op) (h : rolesUnique db) :
    rolesUnique (applyOp db op) := by
  unfold rolesUnique at h ⊢
  cases op with
  | insRol r =>
      by_cases hc : ∃ x ∈ db.roles, x.nombre_rol = r.nombre_rol
      · simpa [applyOp, insertRol, hc, applyIns] using h
      · simp only [applyOp, insertRol, if_neg hc, applyIns]
        exact List.Pairwise.cons (fun b hb hk => hc ⟨b, hb, hk.symm⟩) h
  | insMiembro m =>
      simp only [applyOp, insertMiembro]
      split
      · exact h
      · split <;> exact h
  | insProyecto p =>
      simp only [applyOp, insertProyecto]
      split
      · exact h
      · split <;> exact h
  | insEscena e =>
      simp only [applyOp, insertEscena]
      split
      · exact h
      · split <;> exact h
  | insMaterial m =>
      simp only [applyOp, insertMaterial]
      split
      · exact h
      · split <;> exact h
  | insPresupuesto b =>
      simp only [applyOp, insertPresupuesto]
      split <;> exact h
  | insContrato c =>
      simp only [applyOp, insertContrato]
      split
      · exact h
      · split <;> exact h
  | delRol i => exact List.Pairwise.sublist (List.filter_sublist _) h
  | delMiembro i => exact h
  | delProyecto i => exact h
  | delEscena i => exact h
  | delMaterial i => exact h
  | delPresupuesto i => exact h
  | delContrato i => exact h

/-- Every operation preserves uniqueness of `Miembro_Equipo.email`. -/
theorem emailsUnique_applyOp (db : DB) (op : Op) (h : emailsUnique db) :
    emailsUnique (applyOp db op) := by
  unfold emailsUnique at h ⊢
  cases op with
  | insRol r =>
      simp only [applyOp, insertRol]
      split <;> exact h
  | insMiembro m =>
      by_cases hc : ∃ x ∈ db.miembros, x.email = m.email
      · simpa [applyOp, insertMiembro, hc, applyIns] using h
      · simp only [applyOp, insertMiembro, if_neg hc]
        split
        · exact List.Pairwise.cons (fun b hb hk => hc ⟨b, hb, hk.symm⟩) h
        · exact h
  | insProyecto p =>
      simp only [applyOp, insertProyecto]
      split
      · exact h
      · split <;> exact h
  | insEscena e =>
      simp only [applyOp, insertEscena]
      split
      · exact h
      · split <;> exact h
  | insMaterial m =>
      simp only [applyOp, insertMaterial]
      split
      · exact h
      · split <;> exact h
  | insPresupuesto b =>
      simp only [applyOp, insertPresupuesto]
      split <;> exact h
  | insContrato c =>
      simp only [applyOp, insertContrato]
      split
      · exact h
      · split <;> exact h
  | delRol i =>
      simp only [applyOp, deleteRol]
      rw [List.pairwise_map]
      exact h.imp (fun hab => by simpa [email_nullifyRol] using hab)
  | delMiembro i => exact List.Pairwise.sublist (List.filter_sublist _) h
  | delProyecto i => exact h
  | delEscena i => exact h
  | delMaterial i => exact h
  | delPresupuesto i => exact h
  | delContrato i => exact h

/-- Every operation preserves uniqueness of `Proyecto_Audiovisual.titulo`. -/
theorem titulosUnique_applyOp (db : DB) (op : Op) (h : titulosUnique db) :
    titulosUnique (applyOp db op) := by
  unfold titulosUnique at h ⊢
  cases op with
  | insRol r =>
      simp only [applyOp, insertRol]
      split <;> exact h
  | insMiembro m =>
      simp only [applyOp, insertMiembro]
      split
      · exact h
      · split <;> exact h
  | insProyecto p =>
      by_cases hc : ∃ x ∈ db.proyectos, x.titulo = p.titulo
      · simpa [applyOp, insertProyecto, hc, applyIns] using h
      · simp only [applyOp, insertProyecto, if_neg hc]
        split
        · exact List.Pairwise.cons (fun b hb hk => hc ⟨b, hb, hk.symm⟩) h
        · exact h
  | insEscena e =>
      simp only [applyOp, insertEscena]
      split
      · exact h
      · split <;> exact h
  | insMaterial m =>
      simp only [applyOp, insertMaterial]
      split
      · exact h
      · split <;> exact h
  | insPresupuesto b =>
      simp only [applyOp, insertPresupuesto]
      split <;> exact h
  | insContrato c =>
      simp only [applyOp, insertContrato]
      split
      · exact h
      · split <;> exact h
  | delRol i => exact h
  | delMiembro i =>
      simp only [applyOp, deleteMiembro]
      rw [List.pairwise_map]
      exact h.imp (fun hab => by simpa [titulo_nullifyDirector] using hab)
  | delProyecto i => exact List.Pairwise.sublist (List.filter_sublist _) h
  | delEscena i => exact h
  | delMaterial i => exact h
  | delPresupuesto i => exact h
  | delContrato i => exact h

/-- Every operation preserves uniqueness of
`Material_Grabado.ruta_almacenamiento`. -/
theorem rutasUnique_applyOp (db : DB) (op : Op) (h : rutasUnique db) :
    rutasUnique (applyOp db op) := by
  unfold rutasUnique at h ⊢
  cases op with
  | insRol r =>
      simp only [applyOp, insertRol]
      split <;> exact h
  | insMiembro m =>
      simp only [applyOp, insertMiembro]
      split
      · exact h
      · split <;> exact h
  | insProyecto p =>
      simp only [applyOp, insertProyecto]
      split
      · exact h
      · split <;> exact h
  | insEscena e =>
      simp only [applyOp, insertEscena]
      split
      · exact h
      · split <;> exact h
  | insMaterial m =>
      by_cases hc : ∃ x ∈ db.materiales, x.ruta_almacenamiento = m.ruta_almacenamiento
      · simpa [applyOp, insertMaterial, hc, applyIns] using h
      · simp only [applyOp, insertMaterial, if_neg hc]
        split
        · exact List.Pairwise.cons (fun b hb hk => hc ⟨b, hb, hk.symm⟩) h
        · exact h
  | insPresupuesto b =>
      simp only [applyOp, insertPresupuesto]
      split <;> exact h
  | insContrato c =>
      simp only [applyOp, insertContrato]
      split
      · exact h
      · split <;> exact h
  | delRol i => exact h
  | delMiembro i => exact h
  | delProyecto i => exact List.Pairwise.sublist (List.filter_sublist _) h
  | delEscena i => exact List.Pairwise.sublist (List.filter_sublist _) h
  | delMaterial i => exact List.Pairwise.sublist (List.filter_sublist _) h
  | delPresupuesto i => exact h
  | delContrato i => exact h

/-- `nombre_rol` is unique in every reachable state. -/
theorem rolesUnique_reachable (db : DB) (h : Reachable db) : rolesUnique db := by
  induction h with
  | init => exact List.Pairwise.nil
  | step op _ ih => exact rolesUnique_applyOp _ op ih

/-- `email` is unique in every reachable state. -/
theorem emailsUnique_reachable (db : DB) (h : Reachable db) : emailsUnique db := by
  induction h with
  | init => exact List.Pairwise.nil
  | step op _ ih => exact emailsUnique_applyOp _ op ih

/-- `titulo` is unique in every reachable state. -/
theorem titulosUnique_reachable (db : DB) (h : Reachable db) : titulosUnique db := by
  induction h with
  | init => exact List.Pairwise.nil
  | step op _ ih => exact titulosUnique_applyOp _ op ih

/-- `ruta_almacenamiento` is unique in every reachable state. -/
theorem rutasUnique_reachable (db : DB) (h : Reachable db) : rutasUnique db := by
  induction h with
  | init => exact List.Pairwise.nil
  | step op _ ih => exact rutasUnique_applyOp _ op ih

/-- Sample scene row: scene number 1 of project 2 (same number as
`escenaA1` but under a different project). -/
def escenaB1 : Escena :=
  { id := 0, proyecto := 2, numero_escena := 1, descripcion_escena := "Inicio",
    localizacion := "Exterior", fecha_grabacion_estimada := none,
    hora_grabacion := none, actores_involucrados := none,
    equipos_especiales := none }

/-- Sample scene row with a negative scene number, under project 2. -/
def escenaBneg : Escena :=
  { id := 0, proyecto := 2, numero_escena := -3, descripcion_escena := "Prologo",
    localizacion := "Exterior", fecha_grabacion_estimada := none,
    hora_grabacion := none, actores_involucrados := none,
    equipos_especiales := none }

/-- Sample contract row: member 2 contracted on project 1 (same project
as `contratoA1` but a different member). -/
def contratoBen : Contrato_Talento :=
  { id := 0, proyecto := 1, miembro := 2, fecha_firma := 260,
    salario_acordado := 700, clausulas_especiales := none,
    duracion_contrato := "1 mes", rol_especifico := "Actor secundario" }

/-- C1: deleting an `AudiovisualProject` (`Proyecto_Audiovisual`) row
deletes every `Escena`, `Presupuesto_Detalle` and `Contrato_Talento` row
whose project foreign key references it, and transitively every
`Material_Grabado` row whose scene foreign key references a deleted
scene. -/
theorem C1_delete_proyecto_cascades (db : DB) (pid : Nat) :
    (∀ p ∈ (deleteProyecto db pid).proyectos, p.id ≠ pid) ∧
    (∀ e ∈ (deleteProyecto db pid).escenas, e.proyecto ≠ pid) ∧
    (∀ b ∈ (deleteProyecto db pid).presupuestos, b.proyecto ≠ pid) ∧
    (∀ c ∈ (deleteProyecto db pid).contratos, c.proyecto ≠ pid) ∧
    (∀ m ∈ db.materiales,
      (∃ e ∈ db.escenas, e.id = m.escena ∧ e.proyecto = pid) →
      m ∉ (deleteProyecto db pid).materiales) := by
  refine ⟨?_, ?_, ?_, ?_, ?_⟩
  · intro p hp
    simp only [deleteProyecto, List.mem_filter, decide_eq_true_eq] at hp
    exact hp.2
  · intro e he
    simp only [deleteProyecto, List.mem_filter, decide_eq_true_eq] at he
    exact he.2
  · intro b hb
    simp only [deleteProyecto, List.mem_filter, decide_eq_true_eq] at hb
    exact hb.2
  · intro c hc
    simp only [deleteProyecto, List.mem_filter, decide_eq_true_eq] at hc
    exact hc.2
  · intro m _hm hex hmem
    simp only [deleteProyecto, List.mem_filter, decide_eq_true_eq] at hmem
    exact hmem.2 hex

/-- C1 witness: in the sample database, deleting project 1 removes the
recorded material of its scene. -/
theorem C1_delete_proyecto_cascades_witness :
    materialA1 ∉ (deleteProyecto sampleDB 1).materiales :=
  (C1_delete_proyecto_cascades sampleDB 1).2.2.2.2 materialA1 (by decide) (by decide)

/-- C9: deleting one `Escena` row deletes exactly the `Material_Grabado`
rows whose scene foreign key references it; every other scene stays, the
surviving material is exactly the material of other scenes, and the
project, role, member, budget and contract tables are untouched. -/
theorem C9_delete_escena_frame (db : DB) (eid : Nat) :
    (∀ m ∈ db.materiales,
      (m ∈ (deleteEscena db eid).materiales ↔ m.escena ≠ eid)) ∧
    (∀ m ∈ (deleteEscena db eid).materiales, m ∈ db.materiales) ∧
    (∀ e ∈ db.escenas, e.id ≠ eid → e ∈ (deleteEscena db eid).escenas) ∧
    ((deleteEscena db eid).proyectos = db.proyectos) ∧
    ((deleteEscena db eid).roles = db.roles) ∧
    ((deleteEscena db eid).miembros = db.miembros) ∧
    ((deleteEscena db eid).presupuestos = db.presupuestos) ∧
    ((deleteEscena db eid).contratos = db.contratos) := by
  refine ⟨?_, ?_, ?_, rfl, rfl, rfl, rfl, rfl⟩
  · intro m hm
    simp only [deleteEscena, List.mem_filter, decide_eq_true_eq]
    exact ⟨fun h => h.2, fun h => ⟨hm, h⟩⟩
  · intro m hm
    simp only [deleteEscena, List.mem_filter, decide_eq_true_eq] at hm
    exact hm.1
  · intro e he hne
    simp only [deleteEscena, List.mem_filter, decide_eq_true_eq]
    exact ⟨he, hne⟩

/-- C9 witness: in the sample database, the material of scene 1 is
deleted exactly when its scene foreign key equals the deleted id. -/
theorem C9_delete_escena_frame_witness :
    materialA1 ∈ (deleteEscena sampleDB 1).materiales ↔ materialA1.escena ≠ 1 :=
  (C9_delete_escena_frame sampleDB 1).1 materialA1 (by decide)

/-- C7: deleting a `Miembro_Equipo` row deletes the member and every
`Contrato_Talento` row whose member foreign key references it
(`on_delete=CASCADE` on the required `miembro` link). -/
theorem C7_delete_miembro_cascades_contratos (db : DB) (mid : Nat) :
    (∀ m ∈ (deleteMiembro db mid).miembros, m.id ≠ mid) ∧
    (∀ c ∈ db.contratos, c.miembro = mid →
      c ∉ (deleteMiembro db mid).contratos) ∧
    (∀ c ∈ (deleteMiembro db mid).contratos, c.miembro ≠ mid) := by
  refine ⟨?_, ?_, ?_⟩
  · intro m hm
    simp only [deleteMiembro, List.mem_filter, decide_eq_true_eq] at hm
    exact hm.2
  · intro c _hc hcm hmem
    simp only [deleteMiembro, List.mem_filter, decide_eq_true_eq] at hmem
    exact hmem.2 hcm
  · intro c hc
    simp only [deleteMiembro, List.mem_filter, decide_eq_true_eq] at hc
    exact hc.2

/-- C7 witness: deleting member 1 from the sample database removes the
contract signed by member 1. -/
theorem C7_delete_miembro_cascades_contratos_witness :
    contratoA1 ∉ (deleteMiembro sampleDB 1).contratos :=
  (C7_delete_miembro_cascades_contratos sampleDB 1).2.1 contratoA1 (by decide) (by decide)

/-- C4: deleting a `Rol_Produccion` row referenced by members succeeds,
keeps every member row (same ids, in order) and nullifies the role
foreign key of the members that referenced it; likewise deleting a
`Miembro_Equipo` row referenced as director keeps every project row and
nullifies the `director` foreign key of the projects that referenced
it (`on_delete=SET_NULL` on both links). -/
theorem C4_set_null_referential_actions (db : DB) (rid mid : Nat) :
    ((deleteRol db rid).miembros.map Miembro_Equipo.id
      = db.miembros.map Miembro_Equipo.id) ∧
    (∀ m ∈ (deleteRol db rid).miembros, m.rol_produccion ≠ some rid) ∧
    (∀ r ∈ (deleteRol db rid).roles, r.id ≠ rid) ∧
    ((deleteMiembro db mid).proyectos.map Proyecto_Audiovisual.id
      = db.proyectos.map Proyecto_Audiovisual.id) ∧
    (∀ p ∈ (deleteMiembro db mid).proyectos, p.director ≠ some mid) := by
  refine ⟨?_, ?_, ?_, ?_, ?_⟩
  · show (db.miembros.map _).map _ = _
    rw [List.map_map]
    refine List.map_congr_left ?_
    intro m _hm
    simp only [Function.comp_apply]
    split <;> rfl
  · intro m hm
    simp only [deleteRol, List.mem_map] at hm
    obtain ⟨a, _ha, rfl⟩ := hm
    split
    · simp
    · next hne => exact hne
  · intro r hr
    simp only [deleteRol, List.mem_filter, decide_eq_true_eq] at hr
    exact hr.2
  · show (db.proyectos.map _).map _ = _
    rw [List.map_map]
    refine List.map_congr_left ?_
    intro p _hp
    simp only [Function.comp_apply]
    split <;> rfl
  · intro p hp
    simp only [deleteMiembro, List.mem_map] at hp
    obtain ⟨a, _ha, rfl⟩ := hp
    split
    · simp
    · next hne => exact hne

/-- C4 witness: deleting role 1 from the sample database keeps member
ids and nullifies Ana's role; deleting member 1 keeps project ids. -/
theorem C4_set_null_referential_actions_witness :
    { miembroAna with rol_produccion := none }.rol_produccion ≠ some 1 ∧
    (deleteMiembro sampleDB 1).proyectos.map Proyecto_Audiovisual.id
      = sampleDB.proyectos.map Proyecto_Audiovisual.id :=
  ⟨(C4_set_null_referential_actions sampleDB 1 1).2.1
      { miembroAna with rol_produccion := none } (by decide),
   (C4_set_null_referential_actions sampleDB 1 1).2.2.2.1⟩

/-- C2: if a scene with pair `(p, n)` exists, inserting another scene
with the same pair fails with a uniqueness violation and leaves the
state unchanged; inserting a scene with the same number under a
different existing project, where that pair is still free, succeeds. -/
theorem C2_escena_unique_together (db : DB) (e0 : Escena) (h0 : e0 ∈ db.escenas) :
    (∀ e : Escena, e.proyecto = e0.proyecto → e.numero_escena = e0.numero_escena →
      insertEscena db e = .error .uniqueViolation ∧
      applyOp db (.insEscena e) = db) ∧
    (∀ e : Escena, e.numero_escena = e0.numero_escena → e.proyecto ≠ e0.proyecto →
      (∃ p ∈ db.proyectos, p.id = e.proyecto) →
      (¬ ∃ x ∈ db.escenas, x.proyecto = e.proyecto ∧ x.numero_escena = e.numero_escena) →
      ∃ db', insertEscena db e = .ok db' ∧
        { e with id := db.nextId } ∈ db'.escenas) := by
  constructor
  · intro e hp hn
    have hc : ∃ x ∈ db.escenas, x.proyecto = e.proyecto ∧ x.numero_escena = e.numero_escena :=
      ⟨e0, h0, hp.symm, hn.symm⟩
    exact ⟨by simp [insertEscena, hc], by simp [applyOp, insertEscena, hc, applyIns]⟩
  · intro e _hn _hne hfk hfree
    refine ⟨{ db with escenas := { e with id := db.nextId } :: db.escenas,
                      nextId := db.nextId + 1 }, ?_, List.mem_cons_self _ _⟩
    simp only [insertEscena, if_neg hfree, if_pos hfk]

/-- C2 witness: in the sample database (scene 1 of project 1 exists),
re-inserting scene 1 of project 1 fails with a uniqueness violation and
changes nothing, while scene 1 of project 2 is accepted. -/
theorem C2_escena_unique_together_witness :
    (insertEscena sampleDB escenaA1 = .error .uniqueViolation ∧
     applyOp sampleDB (.insEscena escenaA1) = sampleDB) ∧
    (∃ db', insertEscena sampleDB escenaB1 = .ok db' ∧
      { escenaB1 with id := sampleDB.nextId } ∈ db'.escenas) :=
  ⟨(C2_escena_unique_together sampleDB escenaA1 (by decide)).1 escenaA1 rfl rfl,
   (C2_escena_unique_together sampleDB escenaA1 (by decide)).2 escenaB1
     (by decide) (by decide) (by decide) (by decide)⟩

/-- C3: if a contract for pair `(p, m)` exists, inserting another
contract for the same pair fails with a uniqueness violation and leaves
the state unchanged; a contract for a different member or project, with
both parents existing and the pair free, is accepted. -/
theorem C3_contrato_unique_together (db : DB) (c0 : Contrato_Talento)
    (h0 : c0 ∈ db.contratos) :
    (∀ c : Contrato_Talento, c.proyecto = c0.proyecto → c.miembro = c0.miembro →
      insertContrato db c = .error .uniqueViolation ∧
      applyOp db (.insContrato c) = db) ∧
    (∀ c : Contrato_Talento, (c.miembro ≠ c0.miembro ∨ c.proyecto ≠ c0.proyecto) →
      (∃ p ∈ db.proyectos, p.id = c.proyecto) →
      (∃ m ∈ db.miembros, m.id = c.miembro) →
      (¬ ∃ x ∈ db.contratos, x.proyecto = c.proyecto ∧ x.miembro = c.miembro) →
      ∃ db', insertContrato db c = .ok db' ∧
        { c with id := db.nextId } ∈ db'.contratos) := by
  constructor
  · intro c hp hm
    have hc : ∃ x ∈ db.contratos, x.proyecto = c.proyecto ∧ x.miembro = c.miembro :=
      ⟨c0, h0, hp.symm, hm.symm⟩
    exact ⟨by simp [insertContrato, hc], by simp [applyOp, insertContrato, hc, applyIns]⟩
  · intro c _hdiff hfkp hfkm hfree
    refine ⟨{ db with contratos := { c with id := db.nextId } :: db.contratos,
                      nextId := db.nextId + 1 }, ?_, List.mem_cons_self _ _⟩
    simp only [insertContrato, if_neg hfree, if_pos (And.intro hfkp hfkm)]

/-- C3 witness: in the sample database (member 1 contracted on
project 1), re-inserting a contract for the pair (1, 1) fails and
changes nothing, while a contract for member 2 on project 1 is
accepted. -/
theorem C3_contrato_unique_together_witness :
    (insertContrato sampleDB contratoA1 = .error .uniqueViolation ∧
     applyOp sampleDB (.insContrato contratoA1) = sampleDB) ∧
    (∃ db', insertContrato sampleDB contratoBen = .ok db' ∧
      { contratoBen with id := sampleDB.nextId } ∈ db'.contratos) :=
  ⟨(C3_contrato_unique_together sampleDB contratoA1 (by decide)).1 contratoA1 rfl rfl,
   (C3_contrato_unique_together sampleDB contratoA1 (by decide)).2 contratoBen
     (by decide) (by decide) (by decide) (by decide)⟩

/-- A reachable state: one role inserted into the empty database. -/
def dbR1 : DB := applyOp emptyDB (.insRol rolD)

/-- A reachable state: a role and a member inserted into the empty
database. -/
def dbR2 : DB := applyOp dbR1 (.insMiembro miembroBen)

/-- C5: in every reachable state `nombre_rol` is unique across the
`Rol_Produccion` table, and inserting a row whose `nombre_rol`
duplicates an existing row's fails with a uniqueness violation, leaving
the state unchanged. -/
theorem C5_nombre_rol_unique (db : DB) (h : Reachable db) :
    rolesUnique db ∧
    ∀ r : Rol_Produccion, (∃ x ∈ db.roles, x.nombre_rol = r.nombre_rol) →
      insertRol db r = .error .uniqueViolation ∧
      applyOp db (.insRol r) = db := by
  refine ⟨rolesUnique_reachable db h, ?_⟩
  intro r hc
  exact ⟨by simp [insertRol, hc], by simp [applyOp, insertRol, hc, applyIns]⟩

/-- C5 witness: after inserting the sample role, the table is unique and
re-inserting a role with the same name is rejected without change. -/
theorem C5_nombre_rol_unique_witness :
    rolesUnique dbR1 ∧
    (insertRol dbR1 rolD = .error .uniqueViolation ∧
     applyOp dbR1 (.insRol rolD) = dbR1) :=
  ⟨(C5_nombre_rol_unique dbR1 (Reachable.step _ Reachable.init)).1,
   (C5_nombre_rol_unique dbR1 (Reachable.step _ Reachable.init)).2 rolD (by decide)⟩

/-- C6: in every reachable state `email`, `titulo` and
`ruta_almacenamiento` are each unique across their tables, and every
operation preserves these three column-level uniqueness invariants. -/
theorem C6_column_level_uniques (db : DB) (h : Reachable db) :
    (emailsUnique db ∧ titulosUnique db ∧ rutasUnique db) ∧
    ∀ op : Op, emailsUnique (applyOp db op) ∧ titulosUnique (applyOp db op) ∧
      rutasUnique (applyOp db op) := by
  refine ⟨⟨emailsUnique_reachable db h, titulosUnique_reachable db h,
          rutasUnique_reachable db h⟩, ?_⟩
  intro op
  exact ⟨emailsUnique_applyOp db op (emailsUnique_reachable db h),
         titulosUnique_applyOp db op (titulosUnique_reachable db h),
         rutasUnique_applyOp db op (rutasUnique_reachable db h)⟩

/-- C6 witness: the column-level uniqueness invariants hold in the
reachable two-row sample state. -/
theorem C6_column_level_uniques_witness :
    emailsUnique dbR2 ∧ titulosUnique dbR2 ∧ rutasUnique dbR2 :=
  (C6_column_level_uniques dbR2
    (Reachable.step _ (Reachable.step _ Reachable.init))).1

/-- A `Material_Grabado` row built without supplying `version`: the
structure-level default `V1` (from `default='V1'` on the model field)
fills the field, as Django does on `create`. -/
def newMaterial (escena : Nat) (tipo_material : String) (duracion_segundos : Int)
    (formato_archivo : String) (fecha_grabacion_real : Nat)
    (ruta_almacenamiento : String) (notas_tecnicas : Option String) :
    Material_Grabado :=
  { id := 0, escena := escena, tipo_material := tipo_material,
    duracion_segundos := duracion_segundos, formato_archivo := formato_archivo,
    fecha_grabacion_real := fecha_grabacion_real,
    ruta_almacenamiento := ruta_almacenamiento, notas_tecnicas := notas_tecnicas }

/-- A `Presupuesto_Detalle` row built without supplying `tipo_moneda`:
the structure-level default `USD` (from `default='USD'` on the model
field) fills the field, as Django does on `create`. -/
def newPresupuesto (proyecto : Nat) (categoria_gasto descripcion_gasto : String)
    (monto_estimado : Int) (monto_real : Option Int) (fecha_gasto : Option Nat)
    (aprobado_por : Option String) : Presupuesto_Detalle :=
  { id := 0, proyecto := proyecto, categoria_gasto := categoria_gasto,
    descripcion_gasto := descripcion_gasto, monto_estimado := monto_estimado,
    monto_real := monto_real, fecha_gasto := fecha_gasto,
    aprobado_por := aprobado_por }

/-- C8: a `Material_Grabado` created without supplying `version` carries
`version = "V1"`, and a `Presupuesto_Detalle` created without supplying
`tipo_moneda` carries `tipo_moneda = "USD"`; a successful insert stores
the row with those defaults. -/
theorem C8_default_values (db : DB) (es : Nat) (tm : String) (du : Int)
    (fa : String) (fg : Nat) (ru : String) (nt : Option String) (pr : Nat)
    (cg dg : String) (me : Int) (mr : Option Int) (fh : Option Nat)
    (ab : Option String) :
    (newMaterial es tm du fa fg ru nt).version = "V1" ∧
    (newPresupuesto pr cg dg me mr fh ab).tipo_moneda = "USD" ∧
    (∀ db', insertMaterial db (newMaterial es tm du fa fg ru nt) = .ok db' →
      ∃ m ∈ db'.materiales, m.ruta_almacenamiento = ru ∧ m.version = "V1") ∧
    (∀ db', insertPresupuesto db (newPresupuesto pr cg dg me mr fh ab) = .ok db' →
      ∃ b ∈ db'.presupuestos, b.tipo_moneda = "USD") := by
  refine ⟨rfl, rfl, ?_, ?_⟩
  · intro db' hok
    simp only [insertMaterial] at hok
    split at hok
    · exact Except.noConfusion hok
    · split at hok
      · cases hok
        exact ⟨_, List.mem_cons_self _ _, rfl, rfl⟩
      · exact Except.noConfusion hok
  · intro db' hok
    simp only [insertPresupuesto] at hok
    split at hok
    · cases hok
      exact ⟨_, List.mem_cons_self _ _, rfl⟩
    · exact Except.noConfusion hok

/-- C8 witness: inserting a version-less material and a currency-less
budget line into the sample database stores rows carrying the defaults. -/
theorem C8_default_values_witness :
    (newMaterial 1 "video" 5 "mov" 400 "media/w.mov" none).version = "V1" ∧
    (newPresupuesto 1 "Luz" "Focos" 80 none none none).tipo_moneda = "USD" ∧
    (∃ m ∈ (applyOp sampleDB
        (.insMaterial (newMaterial 1 "video" 5 "mov" 400 "media/w.mov" none))).materiales,
      m.ruta_almacenamiento = "media/w.mov" ∧ m.version = "V1") ∧
    (∃ b ∈ (applyOp sampleDB
        (.insPresupuesto (newPresupuesto 1 "Luz" "Focos" 80 none none none))).presupuestos,
      b.tipo_moneda = "USD") :=
  ⟨(C8_default_values sampleDB 1 "video" 5 "mov" 400 "media/w.mov" none
      1 "Luz" "Focos" 80 none none none).1,
   (C8_default_values sampleDB 1 "video" 5 "mov" 400 "media/w.mov" none
      1 "Luz" "Focos" 80 none none none).2.1,
   (C8_default_values sampleDB 1 "video" 5 "mov" 400 "media/w.mov" none
      1 "Luz" "Focos" 80 none none none).2.2.1 _ rfl,
   (C8_default_values sampleDB 1 "video" 5 "mov" 400 "media/w.mov" none
      1 "Luz" "Focos" 80 none none none).2.2.2 _ rfl⟩

/-- C10: `numero_escena` is an unconstrained integer: a scene whose
number is zero or negative is accepted whenever its project exists and
the `(proyecto, numero_escena)` pair is free. -/
theorem C10_numero_escena_unconstrained (db : DB) (e : Escena)
    (_hn : e.numero_escena ≤ 0)
    (hfk : ∃ p ∈ db.proyectos, p.id = e.proyecto)
    (hfree : ¬ ∃ x ∈ db.escenas, x.proyecto = e.proyecto ∧
      x.numero_escena = e.numero_escena) :
    ∃ db', insertEscena db e = .ok db' ∧
      { e with id := db.nextId } ∈ db'.escenas := by
  refine ⟨{ db with escenas := { e with id := db.nextId } :: db.escenas,
                    nextId := db.nextId + 1 }, ?_, List.mem_cons_self _ _⟩
  simp only [insertEscena, if_neg hfree, if_pos hfk]

/-- C10 witness: a scene numbered -3 under project 2 of the sample
database is accepted. -/
theorem C10_numero_escena_unconstrained_witness :
    ∃ db', insertEscena sampleDB escenaBneg = .ok db' ∧
      { escenaBneg with id := sampleDB.nextId } ∈ db'.escenas :=
  C10_numero_escena_unconstrained sampleDB escenaBneg (by decide) (by decide) (by decide)
